import Mathlib

/-!
Verification of the carrier-detection and response-normalization layer of the
ups-tracker repository (src/carrier_detector.py, src/carrier_api.py,
src/updated_track_packages.py).

Python strings are modelled as lists of Unicode code points (`PyStr`), and the
string operations the code uses (`strip`, `upper`, `replace(' ', '')`,
slicing, `isdigit`, substring search) are modelled over that representation.
`str.upper` and `str.strip` are modelled on the ASCII range, which covers the
alphabet of tracking numbers and carrier payload fields this code manipulates.
-/

/-- A Python string, as its sequence of Unicode code points. -/
abbrev PyStr := List Nat

/-- Code points of a Lean string literal, used to write concrete Python strings. -/
def pyStr (s : String) : PyStr := s.data.map Char.toNat

/-- Python whitespace as stripped by `str.strip()` (ASCII range): space, tab,
newline, carriage return, vertical tab, form feed. -/
def isPySpace (c : Nat) : Bool :=
  decide (c = 32 ∨ c = 9 ∨ c = 10 ∨ c = 13 ∨ c = 11 ∨ c = 12)

/-- `[0-9]` / `str.isdigit` on a single ASCII character. -/
def isDigitC (c : Nat) : Bool := decide (48 ≤ c ∧ c ≤ 57)

/-- `[A-Z]` on a single character. -/
def isUpperAZ (c : Nat) : Bool := decide (65 ≤ c ∧ c ≤ 90)

/-- `[0-9A-Z]` on a single character. -/
def isUpperAlnum (c : Nat) : Bool := isDigitC c || isUpperAZ c

/-- `str.upper` on one character (ASCII model): lowercase letters are shifted
to uppercase, everything else is unchanged. -/
def upperChar (c : Nat) : Nat := if 97 ≤ c ∧ c ≤ 122 then c - 32 else c

/-- `str.upper` on a string. -/
def pyUpper (l : PyStr) : PyStr := l.map upperChar

/-- `str.strip()`: drop leading and trailing whitespace. -/
def pyStrip (l : PyStr) : PyStr :=
  (((l.dropWhile isPySpace).reverse.dropWhile isPySpace)).reverse

/-- `str.replace(' ', '')`: remove every space character. -/
def removeSpaces (l : PyStr) : PyStr := l.filter (fun c => c != 32)

/-- `tracking_number.strip().upper().replace(' ', '')` — the normalization
applied by `detect_carrier`, `format_tracking_number` and
`validate_tracking_number` (carrier_detector.py:52,82,111). -/
def cleanTracking (l : PyStr) : PyStr := removeSpaces (pyUpper (pyStrip l))

/-! ### The pattern table (carrier_detector.py:16-36)

Each regular expression of `CARRIER_PATTERNS` is anchored (`^...$`), so a
`re.match` against it is a full-string match; each is transcribed as a
decidable predicate on the code-point list. -/

/-- `^1Z[0-9A-Z]{16}$` — UPS standard format. `'1' = 49`, `'Z' = 90`. -/
def upsPat1 : PyStr → Bool
  | a :: b :: rest =>
      a == 49 && b == 90 && rest.length == 16 && rest.all isUpperAlnum
  | _ => false

/-- `^T\d{10}$` — UPS Mail Innovations. `'T' = 84`. -/
def upsPat2 : PyStr → Bool
  | a :: rest => a == 84 && rest.length == 10 && rest.all isDigitC
  | _ => false

/-- `^\d{9}$` — UPS alternative format. -/
def upsPat3 (l : PyStr) : Bool := l.length == 9 && l.all isDigitC

/-- `^\d{12}$` — UPS Freight. -/
def upsPat4 (l : PyStr) : Bool := l.length == 12 && l.all isDigitC

/-- `^(H|V|R|U)\d{9}$` — UPS alternative format with one-letter prefix.
`'H' = 72`, `'V' = 86`, `'R' = 82`, `'U' = 85`. -/
def upsPat5 : PyStr → Bool
  | c :: rest =>
      (c == 72 || c == 86 || c == 82 || c == 85) && rest.length == 9 &&
        rest.all isDigitC
  | _ => false

/-- `^9[0-9]{15,21}$` — the USPS Intelligent Mail rule. `'9' = 57`. -/
def uspsPat1 : PyStr → Bool
  | a :: rest =>
      a == 57 && decide (15 ≤ rest.length) && decide (rest.length ≤ 21) &&
        rest.all isDigitC
  | _ => false

/-- `^[A-Z]{2}[0-9]{9}US$` — USPS International. `"US" = [85, 83]`. -/
def uspsPat2 (l : PyStr) : Bool :=
  l.length == 13 && (l.take 2).all isUpperAZ &&
    ((l.drop 2).take 9).all isDigitC && (l.drop 11 == [85, 83])

/-- `^E[A-Z]{1}[0-9]{9}US$` — USPS International Special Services. `'E' = 69`. -/
def uspsPat3 : PyStr → Bool
  | a :: rest =>
      a == 69 && rest.length == 12 && (rest.take 1).all isUpperAZ &&
        ((rest.drop 1).take 9).all isDigitC && (rest.drop 10 == [85, 83])
  | _ => false

/-- `^[0-9]{20}$` — USPS Intelligent Mail package barcode. -/
def uspsPat4 (l : PyStr) : Bool := l.length == 20 && l.all isDigitC

/-- `^([A-Z]{2})?[0-9]{13}$` — USPS tracking for certain packages. -/
def uspsPat5 (l : PyStr) : Bool :=
  (l.length == 13 && l.all isDigitC) ||
    (l.length == 15 && (l.take 2).all isUpperAZ && (l.drop 2).all isDigitC)

/-- `^[0-9]{10,11}$` — DHL Express. -/
def dhlPat1 (l : PyStr) : Bool :=
  (l.length == 10 || l.length == 11) && l.all isDigitC

/-- `^JD[0-9]{18}$` — DHL eCommerce. `'J' = 74`, `'D' = 68`. -/
def dhlPat2 : PyStr → Bool
  | a :: b :: rest =>
      a == 74 && b == 68 && rest.length == 18 && rest.all isDigitC
  | _ => false

/-- Consume exactly `n` digits from the front, returning the remainder. -/
def chompDigits (n : Nat) (l : PyStr) : Option PyStr :=
  if (l.take n).length == n && (l.take n).all isDigitC then some (l.drop n)
  else none

/-- Consume one optional space, greedily (the `' ?'` of the DHL pattern; the
greedy choice is deterministic here because a space can never begin the digit
group that follows). -/
def chompOptSpace : PyStr → PyStr
  | 32 :: rest => rest
  | l => l

/-- `^[0-9]{4} ?[0-9]{4} ?[0-9]{2}$` — DHL Express spaced display format. -/
def dhlPat3 (l : PyStr) : Bool :=
  match chompDigits 4 l with
  | none => false
  | some r1 =>
    match chompDigits 4 (chompOptSpace r1) with
    | none => false
    | some r2 =>
      match chompDigits 2 (chompOptSpace r2) with
      | none => false
      | some r3 => r3.isEmpty

/-- The pattern scan of `detect_carrier` (carrier_detector.py:57-64) on an
already-normalized string: carriers are tried in the table's insertion order
(UPS, then USPS, then DHL), each carrier's patterns in list order, and the
first match decides the carrier; no match yields UNKNOWN. -/
def rawDetect (l : PyStr) : PyStr :=
  if upsPat1 l || upsPat2 l || upsPat3 l || upsPat4 l || upsPat5 l then
    pyStr "UPS"
  else if uspsPat1 l || uspsPat2 l || uspsPat3 l || uspsPat4 l || uspsPat5 l then
    pyStr "USPS"
  else if dhlPat1 l || dhlPat2 l || dhlPat3 l then pyStr "DHL"
  else pyStr "UNKNOWN"

/-- `detect_carrier` (carrier_detector.py:38-64). The argument is `none` for
Python `None`; `if not tracking_number` short-circuits both `None` and the
empty string to UNKNOWN before any normalization. -/
def detect_carrier (t : Option PyStr) : PyStr :=
  match t with
  | none => pyStr "UNKNOWN"
  | some l => if l.isEmpty then pyStr "UNKNOWN" else rawDetect (cleanTracking l)

/-- `format_tracking_number` (carrier_detector.py:66-95). The `carrier`
argument defaults to `None`; a falsy carrier (None or empty) is recomputed by
`detect_carrier` from the normalized number. A DHL 10-digit number is
re-grouped as `#### #### ##`; anything else is returned normalized. -/
def format_tracking_number (t : Option PyStr) (carrier : Option PyStr) :
    Option PyStr :=
  match t with
  | none => none
  | some l =>
    if l.isEmpty then some l
    else
      let m := cleanTracking l
      let c : PyStr :=
        match carrier with
        | none => detect_carrier (some m)
        | some cs => if cs.isEmpty then detect_carrier (some m) else cs
      if c == pyStr "DHL" && m.length == 10 && m.all isDigitC then
        some (m.take 4 ++ [32] ++ (m.drop 4).take 4 ++ [32] ++ m.drop 8)
      else some m

/-! ### Normalization lemmas

`cleanTracking` is idempotent, so re-running the detector on an
already-normalized string (as `detect_carrier` does when it is handed
`format_tracking_number` output) classifies it identically. -/

theorem upperChar_idem (c : Nat) : upperChar (upperChar c) = upperChar c := by
  unfold upperChar; split_ifs <;> omega

theorem isPySpace_upperChar (c : Nat) :
    isPySpace (upperChar c) = isPySpace c := by
  unfold upperChar isPySpace
  split_ifs with h
  · have h1 : ¬(c - 32 = 32 ∨ c - 32 = 9 ∨ c - 32 = 10 ∨ c - 32 = 13 ∨
        c - 32 = 11 ∨ c - 32 = 12) := by omega
    have h2 : ¬(c = 32 ∨ c = 9 ∨ c = 10 ∨ c = 13 ∨ c = 11 ∨ c = 12) := by
      omega
    simp [h1, h2]
  · rfl

theorem upperChar_of_digit (c : Nat) (h : isDigitC c = true) :
    upperChar c = c := by
  unfold isDigitC at h
  unfold upperChar
  rw [if_neg]
  simp only [decide_eq_true_eq] at h
  omega

theorem not_space_of_digit (c : Nat) (h : isDigitC c = true) :
    isPySpace c = false := by
  unfold isDigitC at h
  unfold isPySpace
  simp only [decide_eq_true_eq] at h ⊢
  simp only [decide_eq_false_iff_not]
  omega

theorem ne32_of_not_space (c : Nat) (h : isPySpace c = false) :
    (c != 32) = true := by
  unfold isPySpace at h
  simp only [decide_eq_false_iff_not] at h
  simp only [bne_iff_ne, ne_eq]
  omega

theorem head?_dropWhile_false (p : Nat → Bool) (l : PyStr) :
    ∀ c, (l.dropWhile p).head? = some c → p c = false := by
  induction l with
  | nil => intro c h; simp [List.dropWhile] at h
  | cons a t ih =>
    intro c h
    rw [List.dropWhile_cons] at h
    by_cases hp : p a = true
    · rw [if_pos hp] at h; exact ih c h
    · rw [if_neg hp] at h
      simp only [List.head?_cons, Option.some.injEq] at h
      subst h
      exact Bool.eq_false_iff.mpr hp

theorem dropWhile_eq_self_of_head (p : Nat → Bool) (l : PyStr)
    (h : ∀ c, l.head? = some c → p c = false) : l.dropWhile p = l := by
  cases l with
  | nil => rfl
  | cons a t =>
    rw [List.dropWhile_cons, if_neg]
    simp [h a rfl]

theorem pyStrip_eq_self (l : PyStr)
    (h1 : ∀ c, l.head? = some c → isPySpace c = false)
    (h2 : ∀ c, l.getLast? = some c → isPySpace c = false) : pyStrip l = l := by
  unfold pyStrip
  rw [dropWhile_eq_self_of_head _ _ h1]
  rw [dropWhile_eq_self_of_head]
  · exact l.reverse_reverse
  · intro c hc
    rw [List.head?_reverse] at hc
    exact h2 c hc

/-- The head of `filter (· != 32) (map upperChar s)` is non-whitespace
whenever the head of `s` is. -/
theorem head?_upper_filter (s : PyStr)
    (hs : ∀ c, s.head? = some c → isPySpace c = false) :
    ∀ c, ((s.map upperChar).filter (fun x => x != 32)).head? = some c →
      isPySpace c = false := by
  cases s with
  | nil => intro c h; simp at h
  | cons a t =>
    intro c h
    have ha : isPySpace a = false := hs a rfl
    have hua : isPySpace (upperChar a) = false := by
      rw [isPySpace_upperChar]; exact ha
    rw [List.map_cons, List.filter_cons, if_pos (ne32_of_not_space _ hua)] at h
    simp only [List.head?_cons, Option.some.injEq] at h
    subst h
    exact hua

/-- The last element of a nonempty `dropWhile` is the last element of the
original list (`dropWhile` returns a suffix). -/
theorem getLast?_dropWhile (p : Nat → Bool) (l : PyStr)
    (h : l.dropWhile p ≠ []) : (l.dropWhile p).getLast? = l.getLast? := by
  obtain ⟨pre, hpre⟩ := List.dropWhile_suffix (l := l) p
  conv_rhs => rw [← hpre]
  exact (List.getLast?_append_of_ne_nil pre h).symm

theorem pyStrip_head (l : PyStr) :
    ∀ c, (pyStrip l).head? = some c → isPySpace c = false := by
  intro c hc
  unfold pyStrip at hc
  rw [List.head?_reverse] at hc
  rcases hX : (l.dropWhile isPySpace).reverse.dropWhile isPySpace with _ | ⟨b, t⟩
  · rw [hX] at hc; simp at hc
  · rw [hX] at hc
    rw [← hX] at hc
    rw [getLast?_dropWhile _ _ (by rw [hX]; simp)] at hc
    rw [List.getLast?_reverse] at hc
    exact head?_dropWhile_false isPySpace l c hc

theorem pyStrip_getLast (l : PyStr) :
    ∀ c, (pyStrip l).getLast? = some c → isPySpace c = false := by
  intro c hc
  unfold pyStrip at hc
  rw [List.getLast?_reverse] at hc
  exact head?_dropWhile_false isPySpace _ c hc

theorem head?_cleanTracking (l : PyStr) :
    ∀ c, (cleanTracking l).head? = some c → isPySpace c = false :=
  head?_upper_filter (pyStrip l) (pyStrip_head l)

theorem getLast?_cleanTracking (l : PyStr) :
    ∀ c, (cleanTracking l).getLast? = some c → isPySpace c = false := by
  intro c hc
  rw [← List.head?_reverse] at hc
  have hrev : (cleanTracking l).reverse =
      ((pyStrip l).reverse.map upperChar).filter (fun x => x != 32) := by
    show (((pyStrip l).map upperChar).filter (fun x => x != 32)).reverse = _
    rw [← List.filter_reverse, ← List.map_reverse]
  rw [hrev] at hc
  refine head?_upper_filter (pyStrip l).reverse ?_ c hc
  intro d hd
  rw [List.head?_reverse] at hd
  exact pyStrip_getLast l d hd

/-- `cleanTracking` is idempotent: normalizing an already-normalized tracking
number changes nothing. -/
theorem cleanTracking_idem (l : PyStr) :
    cleanTracking (cleanTracking l) = cleanTracking l := by
  have hstrip : pyStrip (cleanTracking l) = cleanTracking l :=
    pyStrip_eq_self _ (head?_cleanTracking l) (getLast?_cleanTracking l)
  have hupper : pyUpper (cleanTracking l) = cleanTracking l := by
    have h : ∀ c ∈ cleanTracking l, upperChar c = c := by
      intro c hcmem
      have hmap : c ∈ (pyStrip l).map upperChar :=
        (List.mem_filter.mp hcmem).1
      obtain ⟨d, _, hd⟩ := List.mem_map.mp hmap
      rw [← hd]
      exact upperChar_idem d
    show (cleanTracking l).map upperChar = cleanTracking l
    calc (cleanTracking l).map upperChar
        = (cleanTracking l).map id := List.map_congr_left h
      _ = cleanTracking l := List.map_id _
  have hfilter : removeSpaces (cleanTracking l) = cleanTracking l := by
    refine List.filter_eq_self.mpr ?_
    intro c hcmem
    have hmem : c ∈ ((pyStrip l).map upperChar).filter (fun x => x != 32) :=
      hcmem
    simpa using List.of_mem_filter hmem
  show removeSpaces (pyUpper (pyStrip (cleanTracking l))) = cleanTracking l
  rw [hstrip, hupper, hfilter]

theorem digit_ne32 (c : Nat) (h : isDigitC c = true) : (c != 32) = true :=
  ne32_of_not_space c (not_space_of_digit c h)

/-- Normalizing the DHL `#### #### ##` display re-grouping of a 10-digit
number recovers the number. -/
theorem clean_spaced (m : PyStr) (h10 : m.length = 10)
    (hd : m.all isDigitC = true) :
    cleanTracking (m.take 4 ++ [32] ++ (m.drop 4).take 4 ++ [32] ++ m.drop 8) =
      m := by
  have hdig : ∀ x ∈ m, isDigitC x = true := fun x hx =>
    List.all_eq_true.mp hd x hx
  have hE : m.drop 8 ≠ [] := by
    have hlen : (m.drop 8).length = 2 := by rw [List.length_drop, h10]
    intro h; rw [h] at hlen; simp at hlen
  have hhead : ∀ c,
      (m.take 4 ++ [32] ++ (m.drop 4).take 4 ++ [32] ++ m.drop 8).head? =
        some c → isPySpace c = false := by
    rcases m with _ | ⟨a, t⟩
    · simp at h10
    · intro c hc
      simp only [List.take_succ_cons, List.cons_append, List.head?_cons,
        Option.some.injEq] at hc
      subst hc
      exact not_space_of_digit a (hdig a (List.mem_cons_self a t))
  have hlast : ∀ c,
      (m.take 4 ++ [32] ++ (m.drop 4).take 4 ++ [32] ++ m.drop 8).getLast? =
        some c → isPySpace c = false := by
    intro c hc
    rw [List.getLast?_append_of_ne_nil _ hE] at hc
    obtain ⟨hne, rfl⟩ := List.mem_getLast?_eq_getLast hc
    exact not_space_of_digit _ (hdig _ (List.drop_subset 8 m
      (List.getLast_mem hne)))
  have hstrip := pyStrip_eq_self _ hhead hlast
  have hupper : pyUpper
      (m.take 4 ++ [32] ++ (m.drop 4).take 4 ++ [32] ++ m.drop 8) =
      m.take 4 ++ [32] ++ (m.drop 4).take 4 ++ [32] ++ m.drop 8 := by
    have h : ∀ x ∈ m.take 4 ++ [32] ++ (m.drop 4).take 4 ++ [32] ++ m.drop 8,
        upperChar x = x := by
      intro x hx
      simp only [List.mem_append, List.mem_singleton] at hx
      rcases hx with ((((hx | hx) | hx) | hx) | hx)
      · exact upperChar_of_digit x (hdig x (List.take_subset 4 m hx))
      · subst hx; rfl
      · exact upperChar_of_digit x
          (hdig x (List.drop_subset 4 m (List.take_subset 4 (m.drop 4) hx)))
      · subst hx; rfl
      · exact upperChar_of_digit x (hdig x (List.drop_subset 8 m hx))
    show (m.take 4 ++ [32] ++ (m.drop 4).take 4 ++ [32] ++ m.drop 8).map
        upperChar = _
    calc (m.take 4 ++ [32] ++ (m.drop 4).take 4 ++ [32] ++ m.drop 8).map
          upperChar
        = (m.take 4 ++ [32] ++ (m.drop 4).take 4 ++ [32] ++ m.drop 8).map id :=
          List.map_congr_left h
      _ = _ := List.map_id _
  have hfilter : removeSpaces
      (m.take 4 ++ [32] ++ (m.drop 4).take 4 ++ [32] ++ m.drop 8) = m := by
    unfold removeSpaces
    rw [List.filter_append, List.filter_append, List.filter_append,
      List.filter_append]
    have fA : (m.take 4).filter (fun c => c != 32) = m.take 4 :=
      List.filter_eq_self.mpr fun x hx => digit_ne32 x
        (hdig x (List.take_subset 4 m hx))
    have fC : ((m.drop 4).take 4).filter (fun c => c != 32) =
        (m.drop 4).take 4 :=
      List.filter_eq_self.mpr fun x hx => digit_ne32 x
        (hdig x (List.drop_subset 4 m (List.take_subset 4 (m.drop 4) hx)))
    have fE : (m.drop 8).filter (fun c => c != 32) = m.drop 8 :=
      List.filter_eq_self.mpr fun x hx => digit_ne32 x
        (hdig x (List.drop_subset 8 m hx))
    have f32 : ([32] : PyStr).filter (fun c => c != 32) = [] := rfl
    rw [fA, fC, fE, f32]
    simp only [List.append_nil]
    have h48 : (m.drop 4).drop 4 = m.drop 8 := by rw [List.drop_drop]
    rw [← h48, List.append_assoc, List.take_append_drop, List.take_append_drop]
  show removeSpaces (pyUpper (pyStrip _)) = m
  rw [hstrip, hupper, hfilter]

/-! ### Claims about the classifier and formatter -/

/-- C6: `detect_carrier` maps "1Z999AA1X123456789" to UPS,
"9400123456789123456789" to USPS, "1234567890" to DHL and "INVALID123" to
UNKNOWN; empty or null input yields UNKNOWN without an error; and on every
non-empty input the result is the pattern scan of the normalized
(whitespace-trimmed, uppercased, space-stripped) string. -/
theorem detect_carrier_examples_and_normalization :
    detect_carrier (some (pyStr "1Z999AA1X123456789")) = pyStr "UPS" ∧
    detect_carrier (some (pyStr "9400123456789123456789")) = pyStr "USPS" ∧
    detect_carrier (some (pyStr "1234567890")) = pyStr "DHL" ∧
    detect_carrier (some (pyStr "INVALID123")) = pyStr "UNKNOWN" ∧
    detect_carrier none = pyStr "UNKNOWN" ∧
    detect_carrier (some (pyStr "")) = pyStr "UNKNOWN" ∧
    detect_carrier (some (pyStr " 1z999 aa1x123456789 ")) = pyStr "UPS" ∧
    (∀ l : PyStr, l ≠ [] →
      detect_carrier (some l) = rawDetect (cleanTracking l)) := by
  refine ⟨by decide, by decide, by decide, by decide, rfl, by decide,
    by decide, ?_⟩
  intro l hl
  rw [detect_carrier, if_neg]
  simpa [List.isEmpty_iff] using hl

/-- Witness for C6: the normalization conjunct applied at a concrete input. -/
theorem detect_carrier_examples_and_normalization_witness :
    (pyStr "r123456789" ≠ [] ∧
      detect_carrier (some (pyStr "r123456789")) =
        rawDetect (cleanTracking (pyStr "r123456789"))) ∧
    rawDetect (cleanTracking (pyStr "r123456789")) = pyStr "UPS" :=
  ⟨⟨by decide,
    detect_carrier_examples_and_normalization.2.2.2.2.2.2.2
      (pyStr "r123456789") (by decide)⟩, by decide⟩

/-- C7 (counterexample): "9000000000000000" — '9' followed by 15 digits, 16
digits in total — is classified USPS via the first USPS rule, yet its length
is not in the 20–22 band the claim asserts. -/
theorem usps_rule1_length_counterexample :
    uspsPat1 (pyStr "9000000000000000") = true ∧
    detect_carrier (some (pyStr "9000000000000000")) = pyStr "USPS" ∧
    (pyStr "9000000000000000").length = 16 ∧
    ¬(20 ≤ (pyStr "9000000000000000").length) := by decide

/-- C7 (amended): the USPS Intelligent Mail rule `^9[0-9]{15,21}$` matches a
'9' followed by 15–21 further digits, so every string matching it has a total
length of between 16 and 22 digits (not 20–22), and the pattern scan
classifies every such string as USPS (no UPS pattern can match it). -/
theorem usps_rule1_length_bounds :
    ∀ l : PyStr, uspsPat1 l = true →
      (16 ≤ l.length ∧ l.length ≤ 22) ∧ rawDetect l = pyStr "USPS" := by
  intro l h
  rcases l with _ | ⟨a, rest⟩
  · simp [uspsPat1] at h
  · simp only [uspsPat1, Bool.and_eq_true, beq_iff_eq,
      decide_eq_true_eq] at h
    obtain ⟨⟨⟨ha, h15⟩, h21⟩, hall⟩ := h
    subst ha
    refine ⟨⟨by simp only [List.length_cons]; omega,
      by simp only [List.length_cons]; omega⟩, ?_⟩
    have hu1 : upsPat1 (57 :: rest) = false := by
      rcases rest with _ | ⟨b, r2⟩
      · rfl
      · simp [upsPat1]
    have hu2 : upsPat2 (57 :: rest) = false := by simp [upsPat2]
    have hu3 : upsPat3 (57 :: rest) = false := by
      have hne : ((57 :: rest : PyStr).length == 9) = false := by
        simp only [List.length_cons, beq_eq_false_iff_ne, ne_eq]
        omega
      unfold upsPat3
      rw [hne, Bool.false_and]
    have hu4 : upsPat4 (57 :: rest) = false := by
      have hne : ((57 :: rest : PyStr).length == 12) = false := by
        simp only [List.length_cons, beq_eq_false_iff_ne, ne_eq]
        omega
      unfold upsPat4
      rw [hne, Bool.false_and]
    have hu5 : upsPat5 (57 :: rest) = false := by simp [upsPat5]
    have husps : uspsPat1 (57 :: rest) = true := by
      simp [uspsPat1, hall, h15, h21]
    rw [rawDetect, if_neg, if_pos]
    · simp [husps]
    · simp [hu1, hu2, hu3, hu4, hu5]

/-- Witness for C7's amended theorem, at "9000000000000005". -/
theorem usps_rule1_length_bounds_witness :
    uspsPat1 (pyStr "9000000000000005") = true ∧
    (16 ≤ (pyStr "9000000000000005").length ∧
      (pyStr "9000000000000005").length ≤ 22) ∧
    rawDetect (pyStr "9000000000000005") = pyStr "USPS" :=
  ⟨by decide, usps_rule1_length_bounds (pyStr "9000000000000005") (by decide)⟩

/-- C9: formatting preserves classification — for every input and every
carrier argument (supplied or omitted), detecting the carrier of the
formatted tracking number gives the same answer as detecting it on the raw
input; in particular the DHL 4-4-2 spaced display form is still classified
DHL because classification strips internal spaces. -/
theorem detect_carrier_format_invariant :
    ∀ (t carrier : Option PyStr),
      detect_carrier (format_tracking_number t carrier) = detect_carrier t := by
  intro t carrier
  rcases t with _ | l
  · rfl
  · by_cases hl : l.isEmpty
    · simp [format_tracking_number, detect_carrier, hl]
    · have hrhs : detect_carrier (some l) = rawDetect (cleanTracking l) := by
        rw [detect_carrier, if_neg]
        simp [hl]
      rw [hrhs, format_tracking_number]
      rw [if_neg (by simp [hl])]
      simp only []
      split
      · next hcond =>
        simp only [Bool.and_eq_true, beq_iff_eq] at hcond
        obtain ⟨⟨_, h10⟩, hdigs⟩ := hcond
        have hsne : (cleanTracking l).take 4 ++ [32] ++
            ((cleanTracking l).drop 4).take 4 ++ [32] ++
            (cleanTracking l).drop 8 ≠ [] := by
          intro h
          simp [List.append_eq_nil] at h
        rw [detect_carrier, if_neg (by simp [List.isEmpty_iff, hsne])]
        rw [clean_spaced _ h10 hdigs]
      · by_cases h0 : (cleanTracking l).isEmpty
        · have hnil : cleanTracking l = [] := List.isEmpty_iff.mp h0
          rw [detect_carrier, if_pos h0, hnil]
          decide
        · rw [detect_carrier, if_neg h0, cleanTracking_idem]

/-- C10: for every input (including null and the empty string) the detector
returns one of exactly UPS, USPS, DHL, UNKNOWN — never FEDEX. -/
theorem detect_carrier_codomain :
    ∀ t : Option PyStr,
      (detect_carrier t = pyStr "UPS" ∨ detect_carrier t = pyStr "USPS" ∨
        detect_carrier t = pyStr "DHL" ∨
        detect_carrier t = pyStr "UNKNOWN") ∧
      detect_carrier t ≠ pyStr "FEDEX" := by
  intro t
  rcases t with _ | l
  · exact ⟨by decide, by decide⟩
  · rw [detect_carrier]
    split
    · exact ⟨by decide, by decide⟩
    · rw [rawDetect]
      split
      · exact ⟨by decide, by decide⟩
      · split
        · exact ⟨by decide, by decide⟩
        · split
          · exact ⟨by decide, by decide⟩
          · exact ⟨by decide, by decide⟩

/-! ### The adapter layer (carrier_api.py)

Stateful and fallible behaviour is modelled with explicit environments and an
`Except` monad for the bodies of Python `try` blocks: a `try`-block body is a
value of `Except PyExc _`, and the enclosing handler catches any error. -/

/-- The Python exceptions that arise in the modelled code paths. -/
inductive PyExc where
  | attributeError
  | requestException
  | jsonError
  | typeError
deriving DecidableEq, Repr

/-- An address dictionary `{street, city, state, postal_code, country}`;
`none` models an absent key (`dict.get` default `None`). -/
structure PyAddress where
  street : Option PyStr
  city : Option PyStr
  state : Option PyStr
  postal_code : Option PyStr
  country : Option PyStr
deriving DecidableEq, Repr

/-- Python truthiness of an optional string: `None` and `""` are falsy. -/
def truthyOpt : Option PyStr → Bool
  | none => false
  | some s => !s.isEmpty

/-- The StandardizedTrackingRecord shape returned by
`CarrierAPI.standardize_response` (carrier_api.py:90-116). The raw payload is
kept opaque: every reachable error path passes `None` for it. -/
structure TrackRecord where
  tracking_data : Option Unit
  status : Option PyStr
  last_update : Option PyStr
  location : Option PyStr
  address : Option PyAddress
  delivery_estimate : Option PyStr
  carrier : PyStr
deriving DecidableEq, Repr

/-- `CarrierAPI.standardize_response` (carrier_api.py:90-116): all fields pass
through; `carrier` is `carrier_name or self.get_carrier_name()`, so a falsy
`carrier_name` falls back to the class-derived name. -/
def standardize_response (tracking_data : Option Unit) (status : Option PyStr)
    (last_update : Option PyStr) (location : Option PyStr)
    (address : Option PyAddress) (delivery_estimate : Option PyStr)
    (carrier_name : Option PyStr) (class_name : PyStr) : TrackRecord :=
  { tracking_data := tracking_data
    status := status
    last_update := last_update
    location := location
    address := address
    delivery_estimate := delivery_estimate
    carrier :=
      match carrier_name with
      | none => class_name
      | some c => if c.isEmpty then class_name else c }

/-- The environment `UPSApi.get_tracking_info` runs against: the outcome of
`get_oauth_token` (None on any failure), whether `requests.get` raises, the
HTTP status it returns otherwise, and whether `response.json()` raises. -/
structure UpsEnv where
  oauth_token : Option PyStr
  http_exc : Bool
  http_status : Nat
  json_exc : Bool

/-- The body of the `try` block of `UPSApi.get_tracking_info`
(carrier_api.py:199-264). On a 200 response the code calls
`self.parse_tracking_response`, but `UPSApi` has no such attribute — the
`def parse_tracking_response` at carrier_api.py:426 is indented inside the
body of `get_estimated_delivery`, not at class level, and the working parser
is named `parse_ups_tracking_response` — so the call raises AttributeError. -/
def ups_get_tracking_info_body (env : UpsEnv) : Except PyExc TrackRecord :=
  match env.oauth_token with
  | none =>
      Except.ok (standardize_response none (some (pyStr "API Error")) none none
        none none (some (pyStr "UPS")) (pyStr "UPS"))
  | some _ =>
      if env.http_exc then Except.error PyExc.requestException
      else if env.http_status == 200 then
        if env.json_exc then Except.error PyExc.jsonError
        else Except.error PyExc.attributeError
      else
        Except.ok (standardize_response none (some (pyStr "API Error")) none
          none none none (some (pyStr "UPS")) (pyStr "UPS"))

/-- `UPSApi.get_tracking_info` (carrier_api.py:197-271): the whole body is a
`try` whose `except Exception` handler returns a standardized record with
status "Error", so no exception reaches the caller. -/
def ups_get_tracking_info (env : UpsEnv) : TrackRecord :=
  match ups_get_tracking_info_body env with
  | Except.ok r => r
  | Except.error _ =>
      standardize_response none (some (pyStr "Error")) none none none none
        (some (pyStr "UPS")) (pyStr "UPS")

/-- The environment of a UPS address-validation HTTP exchange. -/
structure ValEnv where
  http_exc : Bool
  http_status : Nat

/-- The first definition of `UPSApi.validate_address`
(carrier_api.py:273-338). The boolean records whether the validation request
was issued; the option is the returned validation payload (opaque). With a
token available and at least one of postal_code/city/state truthy, the
request is attempted; otherwise it returns early. -/
def ups_validate_address_v1 (access_token : Option PyStr) (env : ValEnv)
    (address : PyAddress) : Bool × Option Unit :=
  match access_token with
  | none => (false, none)
  | some _ =>
      if !(truthyOpt address.postal_code || truthyOpt address.city ||
          truthyOpt address.state) then
        (false, none)
      else if env.http_exc then (true, none)
      else if env.http_status == 200 then (true, some ())
      else (true, none)

/-- The effective `UPSApi.validate_address`: a second `def validate_address`
at carrier_api.py:584-588 appears later in the same class body, so Python
binds the name to it, replacing the full implementation above. That later
definition (whose docstring even says "USPS Address Validation API") only
logs a warning and returns None — it never issues a request, whatever the
token or the address. -/
def ups_validate_address (_access_token : Option PyStr) (_env : ValEnv)
    (_address : PyAddress) : Bool × Option Unit :=
  (false, none)

/-- `USPSApi._get_usps_mock_data` (carrier_api.py:905-964): the function
builds a `mock_data` dictionary — drawing a 1–5 day horizon, a status and a
city/state pair — but has no `return` statement, so Python returns None for
every input. -/
def usps_get_mock_data (_tracking_number : PyStr) : Option Unit := none

/-- The six-stage status progression of the USPS mock
(carrier_api.py:918-925). -/
def usps_statuses : List PyStr :=
  [pyStr "Accepted at USPS Origin Facility",
   pyStr "Departed USPS Regional Facility",
   pyStr "Arrived at USPS Regional Facility",
   pyStr "In Transit to Next Facility",
   pyStr "Out for Delivery",
   pyStr "Delivered, In/At Mailbox"]

/-- The status-selection logic of the mock generator
(carrier_api.py:927-934), as a function of the drawn `delivery_days`. This
code is unreachable in the program because `_get_usps_mock_data` never
returns its result, but it records the intended progression. -/
def usps_mock_status (delivery_days : Nat) : PyStr :=
  if delivery_days == 0 then pyStr "Delivered, In/At Mailbox"
  else if delivery_days == 1 then pyStr "Out for Delivery"
  else usps_statuses.getD (min (5 - delivery_days) 3) (pyStr "")

/-- The body of the `try` block of `USPSApi.get_tracking_info`
(carrier_api.py:812-833). When configured, `tracking_data` is the None
returned by `_get_usps_mock_data`, and the call
`self.parse_tracking_response(tracking_data)` raises AttributeError:
`USPSApi` defines no `parse_tracking_response`, and the base `CarrierAPI`
has no such method either. -/
def usps_get_tracking_info_body (configured : Bool) : Except PyExc TrackRecord :=
  if !configured then
    Except.ok (standardize_response none (some (pyStr "API Not Configured"))
      none none none none (some (pyStr "USPS")) (pyStr "USPS"))
  else
    Except.error PyExc.attributeError

/-- `USPSApi.get_tracking_info` (carrier_api.py:810-903): the
`except Exception` handler converts any error into a record with status
"Error". `configured` is whether `USPS_USER_ID` is set. -/
def usps_get_tracking_info (configured : Bool) : TrackRecord :=
  match usps_get_tracking_info_body configured with
  | Except.ok r => r
  | Except.error _ =>
      standardize_response none (some (pyStr "Error")) none none none none
        (some (pyStr "USPS")) (pyStr "USPS")

/-- The three adapter classes the factory dictionary maps to
(carrier_api.py:1250-1254). -/
inductive AdapterClass where
  | upsApi
  | uspsApi
  | dhlApi
deriving DecidableEq, Repr

/-- The `@abstractmethod` members of `CarrierAPI` (get_tracking_info,
validate_address, get_estimated_delivery) that each subclass leaves
unimplemented. `UPSApi` and `DHLApi` define all three; `USPSApi`
(carrier_api.py:796-964) defines only `get_tracking_info`. -/
def class_abstract_methods : AdapterClass → List PyStr
  | AdapterClass.upsApi => []
  | AdapterClass.uspsApi => [pyStr "validate_address",
      pyStr "get_estimated_delivery"]
  | AdapterClass.dhlApi => []

/-- Instantiating a subclass of an ABC: `cls()` raises TypeError when any
abstract method remains unimplemented (Python `abc.ABCMeta`). -/
def instantiate_adapter (c : AdapterClass) : Except PyExc AdapterClass :=
  if (class_abstract_methods c).isEmpty then Except.ok c
  else Except.error PyExc.typeError

/-- The `carrier_apis` dictionary lookup (carrier_api.py:1250-1256). -/
def carrier_apis_get (name : PyStr) : Option AdapterClass :=
  if name == pyStr "UPS" then some AdapterClass.upsApi
  else if name == pyStr "USPS" then some AdapterClass.uspsApi
  else if name == pyStr "DHL" then some AdapterClass.dhlApi
  else none

/-- `create_carrier_api` (carrier_api.py:1226-1261): detect the carrier when
the name is falsy and a tracking number is truthy, default a falsy or
UNKNOWN identity to UPS, look the class up in the dictionary (None when
absent), and instantiate it. -/
def create_carrier_api (carrier_name : Option PyStr)
    (tracking_number : Option PyStr) : Except PyExc (Option AdapterClass) :=
  let n0 : PyStr := match carrier_name with | none => [] | some s => s
  let n1 : PyStr :=
    if n0.isEmpty && truthyOpt tracking_number then
      detect_carrier tracking_number
    else n0
  let n2 : PyStr := if n1.isEmpty || n1 == pyStr "UNKNOWN" then pyStr "UPS"
    else n1
  match carrier_apis_get n2 with
  | none => Except.ok none
  | some cls =>
    match instantiate_adapter cls with
    | Except.ok c => Except.ok (some c)
    | Except.error e => Except.error e

instance {ε α : Type} [DecidableEq ε] [DecidableEq α] :
    DecidableEq (Except ε α) := fun a b =>
  match a, b with
  | Except.ok x, Except.ok y =>
      if h : x = y then isTrue (by rw [h])
      else isFalse (fun hh => by cases hh; exact h rfl)
  | Except.error x, Except.error y =>
      if h : x = y then isTrue (by rw [h])
      else isFalse (fun hh => by cases hh; exact h rfl)
  | Except.ok _, Except.error _ => isFalse (fun hh => by cases hh)
  | Except.error _, Except.ok _ => isFalse (fun hh => by cases hh)

/-- C1: `UPSApi.get_tracking_info` is fail-soft. For every environment the
returned record has carrier "UPS" and null last_update, location, address and
delivery_estimate; its status is always the sentinel "API Error" or "Error";
a missing OAuth token or a non-2xx tracking response yields "API Error"; and
any exception raised inside the `try` body is absorbed into an "Error"
record — nothing propagates to the caller. -/
theorem ups_get_tracking_info_fail_soft :
    ∀ env : UpsEnv,
      (ups_get_tracking_info env).carrier = pyStr "UPS" ∧
      (ups_get_tracking_info env).last_update = none ∧
      (ups_get_tracking_info env).location = none ∧
      (ups_get_tracking_info env).address = none ∧
      (ups_get_tracking_info env).delivery_estimate = none ∧
      ((ups_get_tracking_info env).status = some (pyStr "API Error") ∨
        (ups_get_tracking_info env).status = some (pyStr "Error")) ∧
      (env.oauth_token = none →
        (ups_get_tracking_info env).status = some (pyStr "API Error")) ∧
      (∀ tok, env.oauth_token = some tok → env.http_exc = false →
        env.http_status ≠ 200 →
        (ups_get_tracking_info env).status = some (pyStr "API Error")) ∧
      (∀ e, ups_get_tracking_info_body env = Except.error e →
        (ups_get_tracking_info env).status = some (pyStr "Error")) := by
  intro env
  obtain ⟨tok, hexc, hstat, jexc⟩ := env
  rcases tok with _ | t
  · refine ⟨rfl, rfl, rfl, rfl, rfl, Or.inl rfl, fun _ => rfl, ?_, ?_⟩
    · intro tok h; exact absurd h (by simp)
    · intro e h
      simp [ups_get_tracking_info_body] at h
  · unfold ups_get_tracking_info ups_get_tracking_info_body
    rcases hexc
    · by_cases h200 : (hstat == 200) = true
      · rcases jexc <;>
          · simp only [Bool.false_eq_true, if_false, if_pos h200]
            exact ⟨rfl, rfl, rfl, rfl, rfl, Or.inr rfl,
              fun h => by simp at h,
              fun tok h hf hne => absurd (by simpa using h200) hne,
              fun e _ => rfl⟩
      · rcases jexc <;>
          · simp only [Bool.false_eq_true, if_false, if_neg h200]
            exact ⟨rfl, rfl, rfl, rfl, rfl, Or.inl rfl,
              fun h => by simp at h,
              fun tok h hf hne => rfl,
              fun e h => by simp at h⟩
    · rcases jexc <;>
        · simp only [if_true]
          exact ⟨rfl, rfl, rfl, rfl, rfl, Or.inr rfl,
            fun h => by simp at h,
            fun tok h hf hne => by simp at hf,
            fun e _ => rfl⟩

/-- Witness for C1 at a concrete environment (token present, transport OK,
HTTP 500): the record is an all-null "API Error" record for UPS. -/
theorem ups_get_tracking_info_fail_soft_witness :
    (ups_get_tracking_info ⟨some (pyStr "tok"), false, 500, false⟩).status =
      some (pyStr "API Error") ∧
    (ups_get_tracking_info ⟨some (pyStr "tok"), false, 500, false⟩).carrier =
      pyStr "UPS" :=
  ⟨(ups_get_tracking_info_fail_soft
      ⟨some (pyStr "tok"), false, 500, false⟩).2.2.2.2.2.2.2.1
      (pyStr "tok") rfl rfl (by decide),
    (ups_get_tracking_info_fail_soft
      ⟨some (pyStr "tok"), false, 500, false⟩).1⟩

/-- C3 (code bug): in `UPSApi`, the placeholder second definition of
`validate_address` (carrier_api.py:584-588) shadows the real one
(carrier_api.py:273-338). With a token available and an address carrying only
a postal code, the effective method returns None without issuing any request,
while the shadowed first definition would have attempted validation; for an
address with none of postal_code/city/state it returns None either way. -/
theorem ups_validate_address_shadowed :
    (∀ tok env addr, ups_validate_address tok env addr = (false, none)) ∧
    (ups_validate_address (some (pyStr "tok")) ⟨false, 200⟩
      ⟨none, none, none, some (pyStr "10001"), none⟩ = (false, none)) ∧
    (ups_validate_address_v1 (some (pyStr "tok")) ⟨false, 200⟩
      ⟨none, none, none, some (pyStr "10001"), none⟩).1 = true ∧
    (ups_validate_address_v1 (some (pyStr "tok")) ⟨false, 200⟩
      ⟨none, none, none, none, none⟩ = (false, none)) := by
  exact ⟨fun _ _ _ => rfl, rfl, by decide, by decide⟩

/-- C4 (code bug): with `USPS_USER_ID` configured, `USPSApi.get_tracking_info`
does not return a mock-synthesized record: `_get_usps_mock_data` returns None
(it never returns its `mock_data`), the call to the nonexistent
`self.parse_tracking_response` raises AttributeError, and the handler yields
a record with status "Error" — which is not one of the six mock stages. When
unconfigured the status is "API Not Configured" as claimed. The dead
status-selection logic does draw from the six-stage progression. -/
theorem usps_get_tracking_info_code_bug :
    (usps_get_tracking_info true).status = some (pyStr "Error") ∧
    (usps_get_tracking_info true).carrier = pyStr "USPS" ∧
    usps_get_mock_data (pyStr "9400123456789123456789") = none ∧
    usps_get_tracking_info_body true = Except.error PyExc.attributeError ∧
    (pyStr "Error") ∉ usps_statuses ∧
    (usps_get_tracking_info false).status =
      some (pyStr "API Not Configured") ∧
    usps_mock_status 1 = pyStr "Out for Delivery" ∧
    usps_mock_status 2 = pyStr "In Transit to Next Facility" ∧
    usps_mock_status 3 = pyStr "Arrived at USPS Regional Facility" ∧
    usps_mock_status 4 = pyStr "Departed USPS Regional Facility" ∧
    usps_mock_status 5 = pyStr "Accepted at USPS Origin Facility" := by
  decide

/-- C5 (code bug): the factory maps UPS and DHL identities to their adapter
classes, defaults a missing or UNKNOWN identity to UPS, and returns None for
FEDEX — but for USPS it raises TypeError instead of returning an adapter,
because `USPSApi` leaves the abstract methods `validate_address` and
`get_estimated_delivery` unimplemented and so cannot be instantiated. -/
theorem create_carrier_api_mapping :
    create_carrier_api (some (pyStr "UPS")) none =
      Except.ok (some AdapterClass.upsApi) ∧
    create_carrier_api (some (pyStr "DHL")) none =
      Except.ok (some AdapterClass.dhlApi) ∧
    create_carrier_api (some (pyStr "FEDEX")) none = Except.ok none ∧
    create_carrier_api none none = Except.ok (some AdapterClass.upsApi) ∧
    create_carrier_api (some (pyStr "UNKNOWN")) none =
      Except.ok (some AdapterClass.upsApi) ∧
    create_carrier_api none (some (pyStr "INVALID123")) =
      Except.ok (some AdapterClass.upsApi) ∧
    create_carrier_api none (some (pyStr "1234567890")) =
      Except.ok (some AdapterClass.dhlApi) ∧
    create_carrier_api (some (pyStr "USPS")) none =
      Except.error PyExc.typeError ∧
    create_carrier_api none (some (pyStr "9400123456789123456789")) =
      Except.error PyExc.typeError ∧
    class_abstract_methods AdapterClass.uspsApi ≠ [] := by
  decide

/-! ### UPS response parsing: the delivery-estimate extraction policy

The extraction appears identically in `parse_tracking_response`
(updated_track_packages.py:360-516) and `UPSApi.parse_ups_tracking_response`
(carrier_api.py:596-740), with the same helper formatters (`format_ups_date`
and `format_ups_time` at updated_track_packages.py:620-689 are textually the
logic of `UPSApi.format_api_date`/`format_api_time` at carrier_api.py:742-793);
it is embedded once. -/

/-- The fixed 12-entry month-name table used by the date renderers. -/
def month_names : List PyStr :=
  [pyStr "January", pyStr "February", pyStr "March", pyStr "April",
   pyStr "May", pyStr "June", pyStr "July", pyStr "August",
   pyStr "September", pyStr "October", pyStr "November", pyStr "December"]

/-- `int()` of an all-digit string. -/
def natOfDigits (l : PyStr) : Nat :=
  l.foldl (fun acc c => acc * 10 + (c - 48)) 0

/-- Decimal rendering of a number, as an f-string renders an int. -/
def pyNatRepr (n : Nat) : PyStr := (Nat.toDigits 10 n).map Char.toNat

/-- `format_ups_date` (updated_track_packages.py:620-656; the same logic is
`UPSApi.format_api_date`): a string of at least 8 digits is read as YYYYMMDD
and rendered "Month Day, Year" with the day's leading zero dropped; anything
else passes through unchanged. -/
def format_ups_date (date_str : PyStr) : PyStr :=
  if date_str.length < 8 then date_str
  else if date_str.all isDigitC then
    let year := date_str.take 4
    let month := (date_str.drop 4).take 2
    let day := (date_str.drop 6).take 2
    let month_num := natOfDigits month
    if 1 ≤ month_num ∧ month_num ≤ 12 then
      month_names.getD (month_num - 1) (pyStr "") ++ pyStr " " ++
        pyNatRepr (natOfDigits day) ++ pyStr ", " ++ year
    else date_str
  else date_str

/-- `format_ups_time` (updated_track_packages.py:658-689; the same logic is
`UPSApi.format_api_time`): a string of at least 6 digits is read as HHMMSS
and rendered 12-hour with AM/PM (hour 0 becomes 12 AM, hour 12 stays 12 PM);
anything else passes through unchanged. -/
def format_ups_time (time_str : PyStr) : PyStr :=
  if time_str.length < 6 then time_str
  else if time_str.all isDigitC then
    let hour := natOfDigits (time_str.take 2)
    let minute := (time_str.drop 2).take 2
    let am_pm := if hour < 12 then pyStr "AM" else pyStr "PM"
    let hour12 := if hour ≤ 12 then hour else hour - 12
    let hour12 := if hour12 == 0 then 12 else hour12
    pyNatRepr hour12 ++ pyStr ":" ++ minute ++ pyStr " " ++ am_pm
  else time_str

/-- One entry of the package's `deliveryDate` list; `date` and `type` are
read with `.get(key, '')`, so an absent key is the empty string. -/
structure DeliveryDateObj where
  date : PyStr
  type_code : PyStr
deriving DecidableEq, Repr

/-- The package's `deliveryTime` object (`type`, `startTime`, `endTime`, each
read with `.get(key, '')`). -/
structure DeliveryTime where
  dtype : PyStr
  startTime : PyStr
  endTime : PyStr
deriving DecidableEq, Repr

/-- The parts of a UPS `package` object the delivery-estimate extraction
reads: `package.get('deliveryDate', [])` and
`package.get('deliveryTime', {})` (`none` models an absent or empty dict,
which is falsy at the `if delivery_time:` guard). -/
structure UpsPackage where
  deliveryDate : List DeliveryDateObj
  deliveryTime : Option DeliveryTime
deriving DecidableEq, Repr

/-- Step 1 of the policy (carrier_api.py:667-680): loop over the
`deliveryDate` entries and break at the first whose `date` is non-empty,
taking its formatted date. -/
def firstDeliveryDate : List DeliveryDateObj → Option PyStr
  | [] => none
  | o :: rest =>
      if o.date.isEmpty then firstDeliveryDate rest
      else some (format_ups_date o.date)

/-- Step 2 of the policy (carrier_api.py:683-700): the `deliveryTime` object
yields "start - end" for type EDW with both times, or "By end" for type CMT
with an end time; otherwise nothing. -/
def deliveryTimeEstimate : Option DeliveryTime → Option PyStr
  | none => none
  | some dt =>
      if !dt.dtype.isEmpty && (!dt.startTime.isEmpty || !dt.endTime.isEmpty)
      then
        if dt.dtype == pyStr "EDW" && !dt.startTime.isEmpty &&
            !dt.endTime.isEmpty then
          some (format_ups_time dt.startTime ++ pyStr " - " ++
            format_ups_time dt.endTime)
        else if dt.dtype == pyStr "CMT" && !dt.endTime.isEmpty then
          some (pyStr "By " ++ format_ups_time dt.endTime)
        else none
      else none

/-- Whether `needle` starts the list. -/
def listStartsWith (hay needle : PyStr) : Bool := hay.take needle.length == needle

/-- Python's `needle in hay` substring test. -/
def containsSub (hay needle : PyStr) : Bool :=
  match hay with
  | [] => needle.isEmpty
  | _ :: t => listStartsWith hay needle || containsSub t needle

/-- Consume a `/` (code point 47). -/
def chompSlash : PyStr → Option PyStr
  | c :: r => if c == 47 then some r else none
  | [] => none

/-- The trailing `\d{2,4}` of the date regex, matched greedily (it ends the
pattern, so the greedy run is final): the longest leading digit run capped at
4, if at least 2. -/
def matchLastGroup (l : PyStr) : Option PyStr :=
  let k := min (l.takeWhile isDigitC).length 4
  if 2 ≤ k then some (l.take k) else none

/-- Match `\d{1,2}/\d{1,2}/\d{2,4}` at the start of `l`, with the regex
engine's backtracking order: each `\d{1,2}` tries two digits first, then
one. -/
def matchDateAt (l : PyStr) : Option PyStr :=
  let trySecond : PyStr → Nat → Option PyStr := fun r1s b =>
    match chompDigits b r1s with
    | none => none
    | some r2 =>
      match chompSlash r2 with
      | none => none
      | some r2s =>
        match matchLastGroup r2s with
        | none => none
        | some g3 => some (r1s.take b ++ [47] ++ g3)
  let tryFirst : Nat → Option PyStr := fun a =>
    match chompDigits a l with
    | none => none
    | some r1 =>
      match chompSlash r1 with
      | none => none
      | some r1s =>
        match trySecond r1s 2 with
        | some m => some (l.take a ++ [47] ++ m)
        | none =>
          match trySecond r1s 1 with
          | some m => some (l.take a ++ [47] ++ m)
          | none => none
  match tryFirst 2 with
  | some m => some m
  | none => tryFirst 1

/-- `re.search(r'(\d{1,2}/\d{1,2}/\d{2,4})', status)`: the leftmost position
with a match wins. -/
def regexSearchDate : PyStr → Option PyStr
  | [] => none
  | c :: t =>
    match matchDateAt (c :: t) with
    | some m => some m
    | none => regexSearchDate t

/-- Python `str.split('/')`. -/
def pySplitSlash : PyStr → List PyStr
  | [] => [[]]
  | c :: t =>
    if c == 47 then [] :: pySplitSlash t
    else
      match pySplitSlash t with
      | [] => [[c]]
      | h :: r => (c :: h) :: r

/-- The MM/DD/YY(YY) conversion applied to the regex match
(carrier_api.py:707-729): split on '/', prefix "20" to a 2-digit year, and
render "Month Day, Year" via the month table; an out-of-range month (or a
split that is not 3 parts) falls back to the raw matched text. -/
def renderSlashedDate (delivery_date : PyStr) : PyStr :=
  let parts := pySplitSlash delivery_date
  if parts.length == 3 then
    let month_num := natOfDigits (parts.getD 0 [])
    let day := natOfDigits (parts.getD 1 [])
    let year0 := parts.getD 2 []
    let year := if year0.length == 2 then pyStr "20" ++ year0 else year0
    let month_name :=
      if 1 ≤ month_num ∧ month_num ≤ 12 then
        month_names.getD (month_num - 1) (pyStr "")
      else pyStr ""
    if !month_name.isEmpty then
      month_name ++ pyStr " " ++ pyNatRepr day ++ pyStr ", " ++ year
    else delivery_date
  else delivery_date

/-- The three-step delivery-estimate extraction
(carrier_api.py:661-729 / updated_track_packages.py:434-503): step 1 (the
`deliveryDate` list), then step 2 (the `deliveryTime` object) only when step
1 produced nothing, then step 3 (a date regex-extracted from a status text
containing "SCHEDULED DELIVERY" case-insensitively) only when steps 1 and 2
produced nothing. -/
def extract_delivery_estimate (pkg : UpsPackage) (status : PyStr) :
    Option PyStr :=
  let e1 := firstDeliveryDate pkg.deliveryDate
  let e2 :=
    match e1 with
    | some v => some v
    | none => deliveryTimeEstimate pkg.deliveryTime
  match e2 with
  | some v => some v
  | none =>
    if containsSub (pyUpper status) (pyStr "SCHEDULED DELIVERY") then
      match regexSearchDate status with
      | some d => some (renderSlashedDate d)
      | none => none
    else none

/-- The step-1 loop takes the first `deliveryDate` entry with a non-empty
date. -/
theorem firstDeliveryDate_eq_find (l : List DeliveryDateObj) :
    firstDeliveryDate l =
      (l.find? (fun o => !o.date.isEmpty)).map
        (fun o => format_ups_date o.date) := by
  induction l with
  | nil => rfl
  | cons o rest ih =>
    unfold firstDeliveryDate
    by_cases h : o.date.isEmpty
    · simp [List.find?_cons, h, ih]
    · simp [List.find?_cons, h]

/-- C2: the delivery-estimate extraction tries its sources in strict order
with the first non-empty result winning. (1) The first `deliveryDate` entry
carrying a date wins, formatted by the YYYYMMDD renderer — in particular it
beats any `deliveryTime` object. (2) Otherwise a `deliveryTime` of type EDW
with both times yields "start - end", and type CMT with an end time yields
"By end". (3) Otherwise a status containing "SCHEDULED DELIVERY"
(case-insensitively) has a MM/DD/YY or MM/DD/YYYY date regex-extracted and
re-rendered (2-digit years prefixed with "20"). When no step yields a value
the estimate is absent. -/
theorem ups_delivery_estimate_policy :
    (∀ (pkg : UpsPackage) (status : PyStr) (o : DeliveryDateObj),
      pkg.deliveryDate.find? (fun o => !o.date.isEmpty) = some o →
      extract_delivery_estimate pkg status = some (format_ups_date o.date)) ∧
    (∀ (pkg : UpsPackage) (status : PyStr) (dt : DeliveryTime),
      (∀ o ∈ pkg.deliveryDate, o.date = []) →
      pkg.deliveryTime = some dt →
      dt.dtype = pyStr "EDW" → dt.startTime ≠ [] → dt.endTime ≠ [] →
      extract_delivery_estimate pkg status =
        some (format_ups_time dt.startTime ++ pyStr " - " ++
          format_ups_time dt.endTime)) ∧
    (∀ (pkg : UpsPackage) (status : PyStr) (dt : DeliveryTime),
      (∀ o ∈ pkg.deliveryDate, o.date = []) →
      pkg.deliveryTime = some dt →
      dt.dtype = pyStr "CMT" → dt.endTime ≠ [] →
      extract_delivery_estimate pkg status =
        some (pyStr "By " ++ format_ups_time dt.endTime)) ∧
    (∀ (pkg : UpsPackage) (status : PyStr) (d : PyStr),
      (∀ o ∈ pkg.deliveryDate, o.date = []) →
      pkg.deliveryTime = none →
      containsSub (pyUpper status) (pyStr "SCHEDULED DELIVERY") = true →
      regexSearchDate status = some d →
      extract_delivery_estimate pkg status = some (renderSlashedDate d)) ∧
    (∀ (pkg : UpsPackage) (status : PyStr),
      (∀ o ∈ pkg.deliveryDate, o.date = []) →
      pkg.deliveryTime = none →
      containsSub (pyUpper status) (pyStr "SCHEDULED DELIVERY") = false →
      extract_delivery_estimate pkg status = none) ∧
    (∀ (pkg : UpsPackage) (status : PyStr) (o : DeliveryDateObj)
        (dt : DeliveryTime),
      pkg.deliveryDate.find? (fun o => !o.date.isEmpty) = some o →
      pkg.deliveryTime = some dt →
      extract_delivery_estimate pkg status = some (format_ups_date o.date)) := by
  have hnone : ∀ (l : List DeliveryDateObj), (∀ o ∈ l, o.date = []) →
      firstDeliveryDate l = none := by
    intro l h
    rw [firstDeliveryDate_eq_find, List.find?_eq_none.mpr, Option.map_none']
    intro o ho
    simp [h o ho]
  have hsome : ∀ (l : List DeliveryDateObj) (o : DeliveryDateObj),
      l.find? (fun o => !o.date.isEmpty) = some o →
      firstDeliveryDate l = some (format_ups_date o.date) := by
    intro l o h
    rw [firstDeliveryDate_eq_find, h, Option.map_some']
  refine ⟨?_, ?_, ?_, ?_, ?_, ?_⟩
  · intro pkg status o hfind
    unfold extract_delivery_estimate
    rw [hsome _ _ hfind]
  · intro pkg status dt hempty hdt htype hst hend
    obtain ⟨dty, st, en⟩ := dt
    simp only at htype hst hend
    subst htype
    unfold extract_delivery_estimate
    rw [hnone _ hempty, hdt]
    have h1 : (pyStr "EDW").isEmpty = false := by decide
    simp [deliveryTimeEstimate, h1, List.isEmpty_iff, hst, hend]
  · intro pkg status dt hempty hdt htype hend
    obtain ⟨dty, st, en⟩ := dt
    simp only at htype hend
    subst htype
    unfold extract_delivery_estimate
    rw [hnone _ hempty, hdt]
    have h1 : (pyStr "CMT").isEmpty = false := by decide
    have h2 : (pyStr "CMT" == pyStr "EDW") = false := by decide
    simp [deliveryTimeEstimate, h1, h2, List.isEmpty_iff, hend]
  · intro pkg status d hempty hdt hsub hregex
    unfold extract_delivery_estimate
    rw [hnone _ hempty, hdt]
    simp [deliveryTimeEstimate, hsub, hregex]
  · intro pkg status hempty hdt hsub
    unfold extract_delivery_estimate
    rw [hnone _ hempty, hdt]
    simp [deliveryTimeEstimate, hsub]
  · intro pkg status o dt hfind hdt
    unfold extract_delivery_estimate
    rw [hsome _ _ hfind]

/-- Witness for C2: a payload holding both a populated `deliveryDate` list
and a `deliveryTime` object; the `deliveryDate` value wins and renders as
"April 18, 2025". -/
theorem ups_delivery_estimate_policy_witness :
    extract_delivery_estimate
      ⟨[⟨pyStr "20250418", pyStr "DEL"⟩],
        some ⟨pyStr "EDW", pyStr "090000", pyStr "120000"⟩⟩
      (pyStr "In Transit") = some (format_ups_date (pyStr "20250418")) ∧
    format_ups_date (pyStr "20250418") = pyStr "April 18, 2025" :=
  ⟨ups_delivery_estimate_policy.2.2.2.2.2
      ⟨[⟨pyStr "20250418", pyStr "DEL"⟩],
        some ⟨pyStr "EDW", pyStr "090000", pyStr "120000"⟩⟩
      (pyStr "In Transit") ⟨pyStr "20250418", pyStr "DEL"⟩
      ⟨pyStr "EDW", pyStr "090000", pyStr "120000"⟩ (by decide) rfl,
    by decide⟩

/-! ### DHL date formatting (carrier_api.py:1194-1210)

`DHLApi.format_api_date` returns "Unknown" for a falsy input, otherwise runs
`datetime.fromisoformat(date_str.replace('Z', '+00:00'))` and renders the
result with `strftime("%B %d, %Y at %I:%M %p")`; the `except` branch returns
the input unchanged. `fromisoformat` is modelled for the pre-3.11 grammar
`YYYY-MM-DD[<sep>HH[:MM[:SS[.fff[fff]]]][±HH:MM[:SS[.ffffff]]]]` with
calendar validation (month, day-in-month with leap years, hour, minute,
second, offset ranges) — the family of shapes this repository's DHL payloads
(`YYYY-MM-DDTHH:MM:SS`, optionally with `Z` or an offset) live in. -/

/-- Consume exactly `n` digits, returning their value and the remainder. -/
def parseNDigits (n : Nat) (l : PyStr) : Option (Nat × PyStr) :=
  if (l.take n).length == n && (l.take n).all isDigitC then
    some (natOfDigits (l.take n), l.drop n)
  else none

/-- Consume the single character `c`. -/
def expectChar (c : Nat) : PyStr → Option PyStr
  | x :: r => if x == c then some r else none
  | [] => none

/-- Gregorian leap-year rule. -/
def isLeapYear (y : Nat) : Bool := (y % 4 == 0 && y % 100 != 0) || y % 400 == 0

/-- Days in a month. -/
def daysInMonth (y m : Nat) : Nat :=
  if m == 2 then (if isLeapYear y then 29 else 28)
  else if m == 4 || m == 6 || m == 9 || m == 11 then 30
  else 31

/-- The datetime fields the renderer consumes (seconds, fractions and the
offset are validated during parsing but not rendered by the format string). -/
structure PyDateTime where
  year : Nat
  month : Nat
  day : Nat
  hour : Nat
  minute : Nat
deriving DecidableEq, Repr

/-- A fractional-seconds suffix: '.' followed by exactly 3 or 6 digits. -/
def parseFrac : PyStr → Option PyStr
  | 46 :: r =>
    if (r.take 6).length == 6 && (r.take 6).all isDigitC then some (r.drop 6)
    else if (r.take 3).length == 3 && (r.take 3).all isDigitC then
      some (r.drop 3)
    else none
  | _ => none

/-- The time-of-day part `HH[:MM[:SS[.fff[fff]]]]`, validating seconds. -/
def parseTimePart (l : PyStr) : Option (Nat × Nat × PyStr) :=
  match parseNDigits 2 l with
  | none => none
  | some (h, r1) =>
    match expectChar 58 r1 with
    | none => some (h, 0, r1)
    | some r2 =>
      match parseNDigits 2 r2 with
      | none => none
      | some (mi, r3) =>
        match expectChar 58 r3 with
        | none => some (h, mi, r3)
        | some r4 =>
          match parseNDigits 2 r4 with
          | none => none
          | some (s, r5) =>
            if 59 < s then none
            else
              match r5 with
              | 46 :: _ =>
                (match parseFrac r5 with
                 | some r6 => some (h, mi, r6)
                 | none => none)
              | _ => some (h, mi, r5)

/-- The optional trailing UTC offset `±HH:MM[:SS[.ffffff]]`; `some ()` iff
the remainder is empty or a whole valid offset. -/
def parseOffset (l : PyStr) : Option Unit :=
  match l with
  | [] => some ()
  | c :: r =>
    if !(c == 43 || c == 45) then none
    else
      match parseNDigits 2 r with
      | none => none
      | some (oh, r1) =>
        if 23 < oh then none
        else
          match expectChar 58 r1 with
          | none => none
          | some r2 =>
            match parseNDigits 2 r2 with
            | none => none
            | some (om, r3) =>
              if 59 < om then none
              else
                match r3 with
                | [] => some ()
                | 58 :: r4 =>
                  (match parseNDigits 2 r4 with
                   | none => none
                   | some (os, r5) =>
                     if 59 < os then none
                     else
                       match r5 with
                       | [] => some ()
                       | 46 :: _ =>
                         (match parseFrac r5 with
                          | some [] => some ()
                          | _ => none)
                       | _ => none)
                | _ => none

/-- `datetime.fromisoformat` on the modelled grammar: `none` is a raised
ValueError. -/
def py_fromisoformat (l : PyStr) : Option PyDateTime :=
  match parseNDigits 4 l with
  | none => none
  | some (y, r1) =>
    match expectChar 45 r1 with
    | none => none
    | some r2 =>
      match parseNDigits 2 r2 with
      | none => none
      | some (mo, r3) =>
        match expectChar 45 r3 with
        | none => none
        | some r4 =>
          match parseNDigits 2 r4 with
          | none => none
          | some (d, r5) =>
            if y < 1 || mo < 1 || 12 < mo || d < 1 || daysInMonth y mo < d
            then none
            else
              match r5 with
              | [] => some ⟨y, mo, d, 0, 0⟩
              | _sep :: r6 =>
                match parseTimePart r6 with
                | none => none
                | some (h, mi, r7) =>
                  if 23 < h || 59 < mi then none
                  else
                    match parseOffset r7 with
                    | none => none
                    | some _ => some ⟨y, mo, d, h, mi⟩

/-- `date_str.replace('Z', '+00:00')` (`'Z' = 90`). -/
def replaceZ : PyStr → PyStr
  | [] => []
  | c :: t => (if c == 90 then pyStr "+00:00" else [c]) ++ replaceZ t

/-- Zero-padded two-digit rendering (`%d`, `%I`, `%M`). -/
def pad2 (n : Nat) : PyStr := if n < 10 then [48, 48 + n] else pyNatRepr n

/-- Zero-padded four-digit year (`%Y`). -/
def pad4 (n : Nat) : PyStr :=
  if n < 10 then pyStr "000" ++ pyNatRepr n
  else if n < 100 then pyStr "00" ++ pyNatRepr n
  else if n < 1000 then pyStr "0" ++ pyNatRepr n
  else pyNatRepr n

/-- `dt.strftime("%B %d, %Y at %I:%M %p")`: month name, zero-padded day,
year, zero-padded 12-hour hour (0 rendered as 12), minutes, AM/PM. -/
def renderHumanDate (dt : PyDateTime) : PyStr :=
  let hour12 := if dt.hour % 12 == 0 then 12 else dt.hour % 12
  let ampm := if dt.hour < 12 then pyStr "AM" else pyStr "PM"
  month_names.getD (dt.month - 1) (pyStr "") ++ pyStr " " ++ pad2 dt.day ++
    pyStr ", " ++ pad4 dt.year ++ pyStr " at " ++ pad2 hour12 ++ pyStr ":" ++
    pad2 dt.minute ++ pyStr " " ++ ampm

/-- `DHLApi.format_api_date` (carrier_api.py:1194-1210). -/
def dhl_format_api_date (date_str : PyStr) : PyStr :=
  if date_str.isEmpty then pyStr "Unknown"
  else
    match py_fromisoformat (replaceZ date_str) with
    | some dt => renderHumanDate dt
    | none => date_str

/-- C8 (counterexample): a malformed timestamp does not degrade to the
literal "Unknown" — the `except` branch of `DHLApi.format_api_date` returns
the input string unchanged. -/
theorem dhl_format_api_date_counterexample :
    dhl_format_api_date (pyStr "not-a-date") = pyStr "not-a-date" ∧
    dhl_format_api_date (pyStr "not-a-date") ≠ pyStr "Unknown" ∧
    py_fromisoformat (replaceZ (pyStr "not-a-date")) = none := by decide

/-- C8 (amended): a missing (empty) timestamp degrades to the literal
"Unknown"; a malformed one (not parseable as ISO 8601) is returned unchanged
without raising; a well-formed one is rendered
"Month Day, Year at HH:MM AM/PM" (day and hour zero-padded by strftime), as
on the two concrete timestamps. -/
theorem dhl_format_api_date_amended :
    dhl_format_api_date [] = pyStr "Unknown" ∧
    (∀ l : PyStr, l ≠ [] → py_fromisoformat (replaceZ l) = none →
      dhl_format_api_date l = l) ∧
    (∀ (l : PyStr) (dt : PyDateTime), l ≠ [] →
      py_fromisoformat (replaceZ l) = some dt →
      dhl_format_api_date l = renderHumanDate dt) ∧
    dhl_format_api_date (pyStr "2025-04-18T09:51:58") =
      pyStr "April 18, 2025 at 09:51 AM" ∧
    dhl_format_api_date (pyStr "2025-04-18T14:07:00Z") =
      pyStr "April 18, 2025 at 02:07 PM" := by
  refine ⟨rfl, ?_, ?_, by decide, by decide⟩
  · intro l hne hparse
    unfold dhl_format_api_date
    rw [if_neg (by simp [List.isEmpty_iff, hne]), hparse]
  · intro l dt hne hparse
    unfold dhl_format_api_date
    rw [if_neg (by simp [List.isEmpty_iff, hne]), hparse]

/-- Witness for C8's amended theorem: the malformed-input conjunct applied at
"2025-02-30T00:00:00" (an invalid calendar day), and the well-formed conjunct
applied at "2024-02-29T23:59:59" (a leap-year day). -/
theorem dhl_format_api_date_amended_witness :
    dhl_format_api_date (pyStr "2025-02-30T00:00:00") =
      pyStr "2025-02-30T00:00:00" ∧
    dhl_format_api_date (pyStr "2024-02-29T23:59:59") =
      renderHumanDate ⟨2024, 2, 29, 23, 59⟩ :=
  ⟨dhl_format_api_date_amended.2.1 (pyStr "2025-02-30T00:00:00") (by decide)
      (by decide),
    dhl_format_api_date_amended.2.2.1 (pyStr "2024-02-29T23:59:59")
      ⟨2024, 2, 29, 23, 59⟩ (by decide) (by decide)⟩
